import Mathlib

/-!
Shallow embedding of `fastly/kv_store.go` (go-fastly KV Store client).

The HTTP transport, the JSON body decoder and the shared response checker
are external collaborators of this file (they live outside `kv_store.go`);
they are passed to each operation as function parameters, so that every
theorem quantifies over their behaviour.  Each operation returns, next to
its result, the list of HTTP requests it issued, which makes "no network
call is made" an observable fact.
-/

namespace Fastly

/-- `KVStore` record: an KV Store response from the Fastly API
(`CreatedAt`/`UpdatedAt` timestamps are abstracted to naturals). -/
structure KVStore where
  CreatedAt : Option Nat
  ID : String
  Name : String
  UpdatedAt : Option Nat
deriving DecidableEq

/-- An HTTP response as seen by this client: a status code and a body. -/
structure HTTPResponse where
  StatusCode : Nat
  Body : String
deriving DecidableEq

/-- Go `error` values reachable from `kv_store.go`: the sentinel
validation errors (`ErrMissingID`, `ErrMissingName`, `ErrMissingKey`),
the wrapper `NewHTTPError(resp)` carrying the offending response, and
abstract transport/decoder failures. -/
inductive GoError where
  | ErrMissingID
  | ErrMissingName
  | ErrMissingKey
  | HTTPError (resp : HTTPResponse)
  | TransportError (code : Nat)
  | DecodeError (code : Nat)
deriving DecidableEq

/-- HTTP verbs used by `kv_store.go`. -/
inductive Method where
  | GET
  | POST
  | PUT
  | DELETE
deriving DecidableEq

/-- Request bodies issued by `kv_store.go`: none, the JSON encoding of a
`CreateKVStoreInput` (via `PostJSON`), or a raw string body (via `Put`
with `strings.NewReader`). -/
inductive ReqBody where
  | none
  | jsonCreateStore (name : String)
  | raw (s : String)
deriving DecidableEq

/-- One HTTP request issued through the client collaborator. -/
structure Request where
  method : Method
  path : String
  params : List (String × String)
  body : ReqBody
deriving DecidableEq

/-- The HTTP transport collaborator: maps a request to a transport error
or an HTTP response. -/
abbrev Transport : Type := Request → Except GoError HTTPResponse

/-- The `decodeBodyMap` collaborator specialised to a `KVStore` record. -/
abbrev StoreDecoder : Type := String → Except GoError KVStore

/-- The `checkResp` collaborator used by `InsertKVStoreKey`. -/
abbrev RespChecker : Type := HTTPResponse → Option GoError

/-- `CreateKVStoreInput`. -/
structure CreateKVStoreInput where
  Name : String
deriving DecidableEq

/-- `CreateKVStore`: validates `Name`, then POSTs the JSON-encoded input
to `/resources/stores/kv` and decodes the body. -/
def CreateKVStore (t : Transport) (dec : StoreDecoder)
    (i : CreateKVStoreInput) : Except GoError KVStore × List Request :=
  if i.Name = "" then (.error .ErrMissingName, [])
  else
    let req : Request := ⟨.POST, "/resources/stores/kv", [], .jsonCreateStore i.Name⟩
    match t req with
    | .error e => (.error e, [req])
    | .ok resp =>
      match dec resp.Body with
      | .error e => (.error e, [req])
      | .ok store => (.ok store, [req])

/-- `ListKVStoresInput`. -/
structure ListKVStoresInput where
  Cursor : String
  Limit : Int
deriving DecidableEq

/-- `ListKVStoresInput.formatFilters`: no parameters when both filters are
at their zero values, otherwise a `limit` entry (decimal rendering via
`strconv.Itoa`) when `Limit != 0` and a `cursor` entry when `Cursor != ""`. -/
def ListKVStoresInput.formatFilters (l : ListKVStoresInput) : List (String × String) :=
  if l.Limit = 0 ∧ l.Cursor = "" then []
  else
    (if l.Limit ≠ 0 then [("limit", toString l.Limit)] else []) ++
    (if l.Cursor ≠ "" then [("cursor", l.Cursor)] else [])

/-- `ListKVStoresResponse`: a page of stores plus pagination metadata. -/
structure ListKVStoresResponse where
  Data : List KVStore
  Meta : List (String × String)
deriving DecidableEq

/-- Go map indexing `meta[k]`: the zero value `""` when the key is absent. -/
def metaIndex (meta : List (String × String)) (k : String) : String :=
  (meta.lookup k).getD ""

/-- `ListKVStoresPaginator` state.  The `*Client` reference is abstracted
away (the underlying list call result is a parameter of `Next`);
`inputCursor`/`inputLimit` model the shared `*ListKVStoresInput`. -/
structure ListKVStoresPaginator where
  cursor : String
  err : Option GoError
  finished : Bool
  inputCursor : String
  inputLimit : Int
  stores : List KVStore
deriving DecidableEq

/-- `NewListKVStoresPaginator`: zero-valued cursor, error, finished flag
and page, around the given input. -/
def NewListKVStoresPaginator (i : ListKVStoresInput) : ListKVStoresPaginator :=
  { cursor := "", err := Option.none, finished := false,
    inputCursor := i.Cursor, inputLimit := i.Limit, stores := [] }

/-- Outcome of one `Next` step.  `nilDeref st` records that execution
reached the nil pointer dereference `o.Data` with `o = nil`, `st` being
the paginator state at that moment (the mutations made before the
dereference persist, the receiver being a pointer); `ret st b called`
is a normal return of `b` with new state `st`, where `called` tells
whether the underlying list call was made. -/
inductive NextOutcome (σ : Type) where
  | nilDeref (st : σ)
  | ret (st : σ) (returned : Bool) (called : Bool)
deriving DecidableEq

/-- `ListKVStoresPaginator.Next`, statement by statement: the finished
short-circuit, the `l.input.Cursor = l.cursor` write, the underlying
`ListKVStores` call (its result is the parameter `call`), the
error branch that records the error and sets `finished` but does NOT
return, and the unconditional extraction `l.stores = o.Data` /
`o.Meta["next_cursor"]` which dereferences nil after an error. -/
def ListKVStoresPaginator.Next (l : ListKVStoresPaginator)
    (call : Except GoError ListKVStoresResponse) :
    NextOutcome ListKVStoresPaginator :=
  if l.finished then
    .ret { l with stores := [] } false false
  else
    let l1 := { l with inputCursor := l.cursor }
    match call with
    | .error e =>
      .nilDeref { l1 with err := some e, finished := true }
    | .ok o =>
      let l2 := { l1 with stores := o.Data }
      if metaIndex o.Meta "next_cursor" = "" then
        .ret { l2 with finished := true } true true
      else
        .ret { l2 with cursor := metaIndex o.Meta "next_cursor" } true true

/-- `ListKVStoresPaginator.Stores`: the current partial list of stores. -/
def ListKVStoresPaginator.Stores (l : ListKVStoresPaginator) : List KVStore :=
  l.stores

/-- `ListKVStoresPaginator.Err`: any error from the pagination. -/
def ListKVStoresPaginator.Err (l : ListKVStoresPaginator) : Option GoError :=
  l.err

/-- `GetKVStoreInput`. -/
structure GetKVStoreInput where
  ID : String
deriving DecidableEq

/-- `GetKVStore`: validates `ID`, then GETs the store and decodes it. -/
def GetKVStore (t : Transport) (dec : StoreDecoder)
    (i : GetKVStoreInput) : Except GoError KVStore × List Request :=
  if i.ID = "" then (.error .ErrMissingID, [])
  else
    let req : Request := ⟨.GET, "/resources/stores/kv/" ++ i.ID, [], .none⟩
    match t req with
    | .error e => (.error e, [req])
    | .ok resp =>
      match dec resp.Body with
      | .error e => (.error e, [req])
      | .ok store => (.ok store, [req])

/-- `DeleteKVStoreInput`. -/
structure DeleteKVStoreInput where
  ID : String
deriving DecidableEq

/-- `DeleteKVStore`: validates `ID`, DELETEs the store and demands status
exactly `http.StatusNoContent` (204), otherwise `NewHTTPError(resp)`. -/
def DeleteKVStore (t : Transport) (i : DeleteKVStoreInput) :
    Option GoError × List Request :=
  if i.ID = "" then (some .ErrMissingID, [])
  else
    let req : Request := ⟨.DELETE, "/resources/stores/kv/" ++ i.ID, [], .none⟩
    match t req with
    | .error e => (some e, [req])
    | .ok resp =>
      if resp.StatusCode ≠ 204 then (some (.HTTPError resp), [req])
      else (Option.none, [req])

/-- `ListKVStoreKeysInput`. -/
structure ListKVStoreKeysInput where
  Cursor : String
  ID : String
  Limit : Int
deriving DecidableEq

/-- `ListKVStoreKeysInput.formatFilters`: same shape as the store
variant. -/
def ListKVStoreKeysInput.formatFilters (l : ListKVStoreKeysInput) : List (String × String) :=
  if l.Limit = 0 ∧ l.Cursor = "" then []
  else
    (if l.Limit ≠ 0 then [("limit", toString l.Limit)] else []) ++
    (if l.Cursor ≠ "" then [("cursor", l.Cursor)] else [])

/-- `ListKVStoreKeysResponse`: a page of key strings plus metadata. -/
structure ListKVStoreKeysResponse where
  Data : List String
  Meta : List (String × String)
deriving DecidableEq

/-- `ListKVStoreKeysPaginator` state (the `*Client` reference abstracted,
the shared `*ListKVStoreKeysInput` modelled by the `input*` fields). -/
structure ListKVStoreKeysPaginator where
  cursor : String
  err : Option GoError
  finished : Bool
  inputCursor : String
  inputID : String
  inputLimit : Int
  keys : List String
deriving DecidableEq

/-- `NewListKVStoreKeysPaginator`. -/
def NewListKVStoreKeysPaginator (i : ListKVStoreKeysInput) : ListKVStoreKeysPaginator :=
  { cursor := "", err := Option.none, finished := false,
    inputCursor := i.Cursor, inputID := i.ID, inputLimit := i.Limit, keys := [] }

/-- `ListKVStoreKeysPaginator.Next`: identical control flow to the stores
variant, including the unguarded extraction after the error branch. -/
def ListKVStoreKeysPaginator.Next (l : ListKVStoreKeysPaginator)
    (call : Except GoError ListKVStoreKeysResponse) :
    NextOutcome ListKVStoreKeysPaginator :=
  if l.finished then
    .ret { l with keys := [] } false false
  else
    let l1 := { l with inputCursor := l.cursor }
    match call with
    | .error e =>
      .nilDeref { l1 with err := some e, finished := true }
    | .ok o =>
      let l2 := { l1 with keys := o.Data }
      if metaIndex o.Meta "next_cursor" = "" then
        .ret { l2 with finished := true } true true
      else
        .ret { l2 with cursor := metaIndex o.Meta "next_cursor" } true true

/-- `ListKVStoreKeysPaginator.Keys`: the current set of keys. -/
def ListKVStoreKeysPaginator.Keys (l : ListKVStoreKeysPaginator) : List String :=
  l.keys

/-- `ListKVStoreKeysPaginator.Err`. -/
def ListKVStoreKeysPaginator.Err (l : ListKVStoreKeysPaginator) : Option GoError :=
  l.err

/-- `GetKVStoreKeyInput`. -/
structure GetKVStoreKeyInput where
  ID : String
  Key : String
deriving DecidableEq

/-- `GetKVStoreKey`: validates `ID` then `Key`, GETs the key path and
returns the raw response body as text (`io.ReadAll`, no JSON decoding). -/
def GetKVStoreKey (t : Transport) (i : GetKVStoreKeyInput) :
    Except GoError String × List Request :=
  if i.ID = "" then (.error .ErrMissingID, [])
  else if i.Key = "" then (.error .ErrMissingKey, [])
  else
    let req : Request :=
      ⟨.GET, "/resources/stores/kv/" ++ i.ID ++ "/keys/" ++ i.Key, [], .none⟩
    match t req with
    | .error e => (.error e, [req])
    | .ok resp => (.ok resp.Body, [req])

/-- `InsertKVStoreKeyInput`. -/
structure InsertKVStoreKeyInput where
  ID : String
  Key : String
  Value : String
deriving DecidableEq

/-- `InsertKVStoreKey`: validates `ID` then `Key` (the `Value` is never
checked), PUTs `Value` unchanged as the raw request body, and hands the
response to the `checkResp` collaborator. -/
def InsertKVStoreKey (t : Transport) (chk : RespChecker)
    (i : InsertKVStoreKeyInput) : Option GoError × List Request :=
  if i.ID = "" then (some .ErrMissingID, [])
  else if i.Key = "" then (some .ErrMissingKey, [])
  else
    let req : Request :=
      ⟨.PUT, "/resources/stores/kv/" ++ i.ID ++ "/keys/" ++ i.Key, [], .raw i.Value⟩
    match t req with
    | .error e => (some e, [req])
    | .ok resp => (chk resp, [req])

/-- `DeleteKVStoreKeyInput`. -/
structure DeleteKVStoreKeyInput where
  ID : String
  Key : String
deriving DecidableEq

/-- `DeleteKVStoreKey`: validates `ID` then `Key`, DELETEs the key path
and demands status exactly 204, otherwise `NewHTTPError(resp)`. -/
def DeleteKVStoreKey (t : Transport) (i : DeleteKVStoreKeyInput) :
    Option GoError × List Request :=
  if i.ID = "" then (some .ErrMissingID, [])
  else if i.Key = "" then (some .ErrMissingKey, [])
  else
    let req : Request :=
      ⟨.DELETE, "/resources/stores/kv/" ++ i.ID ++ "/keys/" ++ i.Key, [], .none⟩
    match t req with
    | .error e => (some e, [req])
    | .ok resp =>
      if resp.StatusCode ≠ 204 then (some (.HTTPError resp), [req])
      else (Option.none, [req])

/-- C1: when the underlying list call made inside `Next` fails, the
paginator (store or key) records the error and sets `finished := true`,
and in the same step execution still reaches the extraction
`l.stores = o.Data` / `o.Meta` on the nil response: the error branch does
not skip page and cursor extraction, and the nil-dereference outcome is
reached whenever the underlying call errors while not already finished. -/
theorem C1_error_path_reaches_nil_extraction :
    (∀ (l : ListKVStoresPaginator) (e : GoError),
        l.finished = false →
        l.Next (.error e) =
          .nilDeref { l with inputCursor := l.cursor, err := some e, finished := true }) ∧
    (∀ (l : ListKVStoreKeysPaginator) (e : GoError),
        l.finished = false →
        l.Next (.error e) =
          .nilDeref { l with inputCursor := l.cursor, err := some e, finished := true }) := by
  constructor
  · intro l e h
    simp [ListKVStoresPaginator.Next, h]
  · intro l e h
    simp [ListKVStoreKeysPaginator.Next, h]

/-- Witness for C1 at concrete fresh paginators and a concrete error. -/
theorem C1_error_path_reaches_nil_extraction_witness :
    (NewListKVStoresPaginator ⟨"", 0⟩).finished = false ∧
    (NewListKVStoresPaginator ⟨"", 0⟩).Next (.error (.TransportError 7)) =
      .nilDeref { NewListKVStoresPaginator ⟨"", 0⟩ with
                  inputCursor := (NewListKVStoresPaginator ⟨"", 0⟩).cursor,
                  err := some (.TransportError 7), finished := true } ∧
    (NewListKVStoreKeysPaginator ⟨"", "sid", 0⟩).Next (.error (.TransportError 7)) =
      .nilDeref { NewListKVStoreKeysPaginator ⟨"", "sid", 0⟩ with
                  inputCursor := (NewListKVStoreKeysPaginator ⟨"", "sid", 0⟩).cursor,
                  err := some (.TransportError 7), finished := true } :=
  ⟨rfl,
   C1_error_path_reaches_nil_extraction.1 (NewListKVStoresPaginator ⟨"", 0⟩)
     (.TransportError 7) rfl,
   C1_error_path_reaches_nil_extraction.2 (NewListKVStoreKeysPaginator ⟨"", "sid", 0⟩)
     (.TransportError 7) rfl⟩

/-- C2: `finished` is terminal and `Next` is idempotent there: for every
paginator (store or key) with `finished = true`, `Next` clears the page,
returns `false`, makes no underlying list call, and leaves the error,
cursor and finished flag (and the shared input) unchanged. -/
theorem C2_finished_is_terminal_and_idempotent :
    (∀ (l : ListKVStoresPaginator) (call : Except GoError ListKVStoresResponse),
        l.finished = true →
        l.Next call = .ret { l with stores := [] } false false) ∧
    (∀ (l : ListKVStoreKeysPaginator) (call : Except GoError ListKVStoreKeysResponse),
        l.finished = true →
        l.Next call = .ret { l with keys := [] } false false) := by
  constructor
  · intro l call h
    simp [ListKVStoresPaginator.Next, h]
  · intro l call h
    simp [ListKVStoreKeysPaginator.Next, h]

/-- Witness for C2 at concrete finished paginators carrying a stored
error, a nonempty cursor and a nonempty page. -/
theorem C2_finished_is_terminal_and_idempotent_witness :
    (ListKVStoresPaginator.mk "c2" (some (.HTTPError ⟨500, "b"⟩)) true "x" 7
        [⟨Option.none, "id1", "n1", Option.none⟩]).Next (.error .ErrMissingKey) =
      .ret (ListKVStoresPaginator.mk "c2" (some (.HTTPError ⟨500, "b"⟩)) true "x" 7 [])
        false false ∧
    (ListKVStoreKeysPaginator.mk "c2" (some (.HTTPError ⟨500, "b"⟩)) true "x" "sid" 7
        ["k1"]).Next (.error .ErrMissingKey) =
      .ret (ListKVStoreKeysPaginator.mk "c2" (some (.HTTPError ⟨500, "b"⟩)) true "x" "sid" 7 [])
        false false :=
  ⟨C2_finished_is_terminal_and_idempotent.1
     (ListKVStoresPaginator.mk "c2" (some (.HTTPError ⟨500, "b"⟩)) true "x" 7
       [⟨Option.none, "id1", "n1", Option.none⟩]) (.error .ErrMissingKey) rfl,
   C2_finished_is_terminal_and_idempotent.2
     (ListKVStoreKeysPaginator.mk "c2" (some (.HTTPError ⟨500, "b"⟩)) true "x" "sid" 7
       ["k1"]) (.error .ErrMissingKey) rfl⟩

/-- C3: for every not-finished paginator, on a successful underlying call
`Next` stores the returned items as the current page, then inspects the
metadata entry `next_cursor`: absent-or-empty sets `finished := true`,
otherwise it is stored as the cursor used by the following `Next` call;
and `Next` returns `true` (making the underlying call) either way. -/
theorem C3_success_stores_page_and_advances_cursor :
    (∀ (l : ListKVStoresPaginator) (o : ListKVStoresResponse),
        l.finished = false →
        (metaIndex o.Meta "next_cursor" = "" →
          l.Next (.ok o) =
            .ret { l with inputCursor := l.cursor, stores := o.Data, finished := true }
              true true) ∧
        (metaIndex o.Meta "next_cursor" ≠ "" →
          l.Next (.ok o) =
            .ret { l with inputCursor := l.cursor, stores := o.Data,
                          cursor := metaIndex o.Meta "next_cursor" } true true)) ∧
    (∀ (l : ListKVStoreKeysPaginator) (o : ListKVStoreKeysResponse),
        l.finished = false →
        (metaIndex o.Meta "next_cursor" = "" →
          l.Next (.ok o) =
            .ret { l with inputCursor := l.cursor, keys := o.Data, finished := true }
              true true) ∧
        (metaIndex o.Meta "next_cursor" ≠ "" →
          l.Next (.ok o) =
            .ret { l with inputCursor := l.cursor, keys := o.Data,
                          cursor := metaIndex o.Meta "next_cursor" } true true)) := by
  constructor
  · intro l o h
    constructor
    · intro hm
      simp [ListKVStoresPaginator.Next, h, hm]
    · intro hm
      simp [ListKVStoresPaginator.Next, h, hm]
  · intro l o h
    constructor
    · intro hm
      simp [ListKVStoreKeysPaginator.Next, h, hm]
    · intro hm
      simp [ListKVStoreKeysPaginator.Next, h, hm]

/-- Witness for C3: fresh paginators fed a last page (no `next_cursor`
entry) and a middle page (`next_cursor = "c1"`). -/
theorem C3_success_stores_page_and_advances_cursor_witness :
    (ListKVStoresPaginator.mk "" Option.none false "" 0 []).Next
        (.ok ⟨[⟨Option.none, "id1", "n1", Option.none⟩], []⟩) =
      .ret (ListKVStoresPaginator.mk "" Option.none true "" 0
        [⟨Option.none, "id1", "n1", Option.none⟩]) true true ∧
    (ListKVStoresPaginator.mk "" Option.none false "" 0 []).Next
        (.ok ⟨[], [("next_cursor", "c1")]⟩) =
      .ret (ListKVStoresPaginator.mk "c1" Option.none false "" 0 []) true true ∧
    (ListKVStoreKeysPaginator.mk "" Option.none false "" "sid" 0 []).Next
        (.ok ⟨["k1"], []⟩) =
      .ret (ListKVStoreKeysPaginator.mk "" Option.none true "" "sid" 0 ["k1"]) true true ∧
    (ListKVStoreKeysPaginator.mk "" Option.none false "" "sid" 0 []).Next
        (.ok ⟨[], [("next_cursor", "c1")]⟩) =
      .ret (ListKVStoreKeysPaginator.mk "c1" Option.none false "" "sid" 0 []) true true :=
  ⟨(C3_success_stores_page_and_advances_cursor.1
      (ListKVStoresPaginator.mk "" Option.none false "" 0 [])
      ⟨[⟨Option.none, "id1", "n1", Option.none⟩], []⟩ rfl).1 rfl,
   (C3_success_stores_page_and_advances_cursor.1
      (ListKVStoresPaginator.mk "" Option.none false "" 0 [])
      ⟨[], [("next_cursor", "c1")]⟩ rfl).2 (by decide),
   (C3_success_stores_page_and_advances_cursor.2
      (ListKVStoreKeysPaginator.mk "" Option.none false "" "sid" 0 [])
      ⟨["k1"], []⟩ rfl).1 rfl,
   (C3_success_stores_page_and_advances_cursor.2
      (ListKVStoreKeysPaginator.mk "" Option.none false "" "sid" 0 [])
      ⟨[], [("next_cursor", "c1")]⟩ rfl).2 (by decide)⟩

/-- C4: round trip over a scripted transport returning `next_cursor`
values "c1", "c2", "" across three successful calls: the first three
`Next` calls return `true`, the fourth returns `false` (no call made),
the cursor submitted on call n+1 (the `inputCursor` field after each
step) equals the `next_cursor` of call n — "" on the first call — and
`Stores` after each true-returning call equals that call's scripted
page. -/
theorem C4_scripted_round_trip (p1 p2 p3 : List KVStore)
    (c4 : Except GoError ListKVStoresResponse) :
    NewListKVStoresPaginator ⟨"", 0⟩ =
      ListKVStoresPaginator.mk "" Option.none false "" 0 [] ∧
    (ListKVStoresPaginator.mk "" Option.none false "" 0 []).Next
        (.ok ⟨p1, [("next_cursor", "c1")]⟩) =
      .ret (ListKVStoresPaginator.mk "c1" Option.none false "" 0 p1) true true ∧
    (ListKVStoresPaginator.mk "c1" Option.none false "" 0 p1).Stores = p1 ∧
    (ListKVStoresPaginator.mk "c1" Option.none false "" 0 p1).Next
        (.ok ⟨p2, [("next_cursor", "c2")]⟩) =
      .ret (ListKVStoresPaginator.mk "c2" Option.none false "c1" 0 p2) true true ∧
    (ListKVStoresPaginator.mk "c2" Option.none false "c1" 0 p2).Stores = p2 ∧
    (ListKVStoresPaginator.mk "c2" Option.none false "c1" 0 p2).Next
        (.ok ⟨p3, [("next_cursor", "")]⟩) =
      .ret (ListKVStoresPaginator.mk "c2" Option.none true "c2" 0 p3) true true ∧
    (ListKVStoresPaginator.mk "c2" Option.none true "c2" 0 p3).Stores = p3 ∧
    (ListKVStoresPaginator.mk "c2" Option.none true "c2" 0 p3).Next c4 =
      .ret (ListKVStoresPaginator.mk "c2" Option.none true "c2" 0 []) false false :=
  ⟨rfl, rfl, rfl, rfl, rfl, rfl, rfl, rfl⟩

/-- C5: for every delete call (store or key) whose transport round trip
succeeds, status exactly 204 yields no error, and any other status
yields `NewHTTPError(resp)` — an HTTP error carrying the response (and
hence its status) for inspection. -/
theorem C5_delete_requires_exactly_204 :
    (∀ (t : Transport) (i : DeleteKVStoreInput) (resp : HTTPResponse),
        i.ID ≠ "" →
        t ⟨.DELETE, "/resources/stores/kv/" ++ i.ID, [], .none⟩ = .ok resp →
        (resp.StatusCode = 204 →
          DeleteKVStore t i =
            (Option.none, [⟨.DELETE, "/resources/stores/kv/" ++ i.ID, [], .none⟩])) ∧
        (resp.StatusCode ≠ 204 →
          DeleteKVStore t i =
            (some (.HTTPError resp),
             [⟨.DELETE, "/resources/stores/kv/" ++ i.ID, [], .none⟩]))) ∧
    (∀ (t : Transport) (i : DeleteKVStoreKeyInput) (resp : HTTPResponse),
        i.ID ≠ "" → i.Key ≠ "" →
        t ⟨.DELETE, "/resources/stores/kv/" ++ i.ID ++ "/keys/" ++ i.Key, [], .none⟩ =
          .ok resp →
        (resp.StatusCode = 204 →
          DeleteKVStoreKey t i =
            (Option.none,
             [⟨.DELETE, "/resources/stores/kv/" ++ i.ID ++ "/keys/" ++ i.Key, [], .none⟩])) ∧
        (resp.StatusCode ≠ 204 →
          DeleteKVStoreKey t i =
            (some (.HTTPError resp),
             [⟨.DELETE, "/resources/stores/kv/" ++ i.ID ++ "/keys/" ++ i.Key, [], .none⟩]))) := by
  constructor
  · intro t i resp hid ht
    constructor
    · intro hs
      simp [DeleteKVStore, hid, ht, hs]
    · intro hs
      simp [DeleteKVStore, hid, ht, hs]
  · intro t i resp hid hkey ht
    constructor
    · intro hs
      simp [DeleteKVStoreKey, hid, hkey, ht, hs]
    · intro hs
      simp [DeleteKVStoreKey, hid, hkey, ht, hs]

/-- Witness for C5: a transport answering 204 for the store delete, and
one answering 500 for the key delete. -/
theorem C5_delete_requires_exactly_204_witness :
    DeleteKVStore (fun _ => .ok ⟨204, ""⟩) ⟨"s"⟩ =
      (Option.none, [⟨.DELETE, "/resources/stores/kv/" ++ "s", [], .none⟩]) ∧
    DeleteKVStoreKey (fun _ => .ok ⟨500, "oops"⟩) ⟨"s", "k"⟩ =
      (some (.HTTPError ⟨500, "oops"⟩),
       [⟨.DELETE, "/resources/stores/kv/" ++ "s" ++ "/keys/" ++ "k", [], .none⟩]) :=
  ⟨(C5_delete_requires_exactly_204.1 (fun _ => .ok ⟨204, ""⟩) ⟨"s"⟩ ⟨204, ""⟩
      (by decide) rfl).1 rfl,
   (C5_delete_requires_exactly_204.2 (fun _ => .ok ⟨500, "oops"⟩) ⟨"s", "k"⟩ ⟨500, "oops"⟩
      (by decide) (by decide) rfl).2 (by decide)⟩

/-- C6: `CreateKVStore` with empty `Name` returns `ErrMissingName`, and
`GetKVStore` / `DeleteKVStore` with empty `ID` return `ErrMissingID`,
all without issuing any HTTP request, for every transport and decoder. -/
theorem C6_store_ops_fail_fast_without_transport :
    (∀ (t : Transport) (dec : StoreDecoder),
        CreateKVStore t dec ⟨""⟩ = (.error .ErrMissingName, [])) ∧
    (∀ (t : Transport) (dec : StoreDecoder),
        GetKVStore t dec ⟨""⟩ = (.error .ErrMissingID, [])) ∧
    (∀ (t : Transport), DeleteKVStore t ⟨""⟩ = (some .ErrMissingID, [])) :=
  ⟨fun _ _ => rfl, fun _ _ => rfl, fun _ => rfl⟩

/-- C7: `formatFilters` (both input types) emits nothing when
`Limit = 0` and `Cursor = ""`; a nonzero `Limit` yields a `limit`
parameter equal to its decimal rendering, and a nonempty `Cursor` yields
a `cursor` parameter equal to it. -/
theorem C7_format_filters_omits_zero_values :
    (∀ (l : ListKVStoresInput),
        (l.Limit = 0 → l.Cursor = "" → l.formatFilters = []) ∧
        (l.Limit ≠ 0 → l.formatFilters.lookup "limit" = some (toString l.Limit)) ∧
        (l.Cursor ≠ "" → l.formatFilters.lookup "cursor" = some l.Cursor)) ∧
    (∀ (l : ListKVStoreKeysInput),
        (l.Limit = 0 → l.Cursor = "" → l.formatFilters = []) ∧
        (l.Limit ≠ 0 → l.formatFilters.lookup "limit" = some (toString l.Limit)) ∧
        (l.Cursor ≠ "" → l.formatFilters.lookup "cursor" = some l.Cursor)) := by
  constructor
  · intro l
    refine ⟨fun h1 h2 => ?_, fun h => ?_, fun h => ?_⟩
    · simp [ListKVStoresInput.formatFilters, h1, h2]
    · simp [ListKVStoresInput.formatFilters, h, List.lookup]
    · by_cases hl : l.Limit = 0 <;>
        simp [ListKVStoresInput.formatFilters, h, hl, List.lookup]
  · intro l
    refine ⟨fun h1 h2 => ?_, fun h => ?_, fun h => ?_⟩
    · simp [ListKVStoreKeysInput.formatFilters, h1, h2]
    · simp [ListKVStoreKeysInput.formatFilters, h, List.lookup]
    · by_cases hl : l.Limit = 0 <;>
        simp [ListKVStoreKeysInput.formatFilters, h, hl, List.lookup]

/-- Witness for C7: zero-valued inputs emit nothing; inputs with
`Limit = 5` and `Cursor = "c"` emit both parameters. -/
theorem C7_format_filters_omits_zero_values_witness :
    (ListKVStoresInput.mk "" 0).formatFilters = [] ∧
    (ListKVStoresInput.mk "c" 5).formatFilters.lookup "limit" =
      some (toString (5 : Int)) ∧
    (ListKVStoresInput.mk "c" 5).formatFilters.lookup "cursor" = some "c" ∧
    (ListKVStoreKeysInput.mk "" "sid" 0).formatFilters = [] ∧
    (ListKVStoreKeysInput.mk "c" "sid" 5).formatFilters.lookup "limit" =
      some (toString (5 : Int)) ∧
    (ListKVStoreKeysInput.mk "c" "sid" 5).formatFilters.lookup "cursor" = some "c" :=
  ⟨(C7_format_filters_omits_zero_values.1 (ListKVStoresInput.mk "" 0)).1 rfl rfl,
   (C7_format_filters_omits_zero_values.1 (ListKVStoresInput.mk "c" 5)).2.1 (by decide),
   (C7_format_filters_omits_zero_values.1 (ListKVStoresInput.mk "c" 5)).2.2 (by decide),
   (C7_format_filters_omits_zero_values.2 (ListKVStoreKeysInput.mk "" "sid" 0)).1 rfl rfl,
   (C7_format_filters_omits_zero_values.2 (ListKVStoreKeysInput.mk "c" "sid" 5)).2.1
     (by decide),
   (C7_format_filters_omits_zero_values.2 (ListKVStoreKeysInput.mk "c" "sid" 5)).2.2
     (by decide)⟩

/-- C8: every key operation returns `ErrMissingID` when the store ID is
empty and `ErrMissingKey` when the ID is nonempty but the key is empty,
in both cases issuing no HTTP request, for every transport (and
checker). -/
theorem C8_key_ops_fail_fast_without_transport :
    (∀ (t : Transport) (i : GetKVStoreKeyInput),
        (i.ID = "" → GetKVStoreKey t i = (.error .ErrMissingID, [])) ∧
        (i.ID ≠ "" → i.Key = "" → GetKVStoreKey t i = (.error .ErrMissingKey, []))) ∧
    (∀ (t : Transport) (chk : RespChecker) (i : InsertKVStoreKeyInput),
        (i.ID = "" → InsertKVStoreKey t chk i = (some .ErrMissingID, [])) ∧
        (i.ID ≠ "" → i.Key = "" → InsertKVStoreKey t chk i = (some .ErrMissingKey, []))) ∧
    (∀ (t : Transport) (i : DeleteKVStoreKeyInput),
        (i.ID = "" → DeleteKVStoreKey t i = (some .ErrMissingID, [])) ∧
        (i.ID ≠ "" → i.Key = "" → DeleteKVStoreKey t i = (some .ErrMissingKey, []))) := by
  refine ⟨fun t i => ⟨fun h => ?_, fun h1 h2 => ?_⟩,
          fun t chk i => ⟨fun h => ?_, fun h1 h2 => ?_⟩,
          fun t i => ⟨fun h => ?_, fun h1 h2 => ?_⟩⟩
  · simp [GetKVStoreKey, h]
  · simp [GetKVStoreKey, h1, h2]
  · simp [InsertKVStoreKey, h]
  · simp [InsertKVStoreKey, h1, h2]
  · simp [DeleteKVStoreKey, h]
  · simp [DeleteKVStoreKey, h1, h2]

/-- Witness for C8: each operation at an empty-ID input and at a
nonempty-ID empty-key input, with a concrete transport and checker. -/
theorem C8_key_ops_fail_fast_without_transport_witness :
    GetKVStoreKey (fun _ => .ok ⟨200, "v"⟩) ⟨"", "k"⟩ = (.error .ErrMissingID, []) ∧
    GetKVStoreKey (fun _ => .ok ⟨200, "v"⟩) ⟨"s", ""⟩ = (.error .ErrMissingKey, []) ∧
    InsertKVStoreKey (fun _ => .ok ⟨200, ""⟩) (fun _ => Option.none) ⟨"", "k", "v"⟩ =
      (some .ErrMissingID, []) ∧
    InsertKVStoreKey (fun _ => .ok ⟨200, ""⟩) (fun _ => Option.none) ⟨"s", "", "v"⟩ =
      (some .ErrMissingKey, []) ∧
    DeleteKVStoreKey (fun _ => .ok ⟨204, ""⟩) ⟨"", "k"⟩ = (some .ErrMissingID, []) ∧
    DeleteKVStoreKey (fun _ => .ok ⟨204, ""⟩) ⟨"s", ""⟩ = (some .ErrMissingKey, []) :=
  ⟨(C8_key_ops_fail_fast_without_transport.1 (fun _ => .ok ⟨200, "v"⟩) ⟨"", "k"⟩).1 rfl,
   (C8_key_ops_fail_fast_without_transport.1 (fun _ => .ok ⟨200, "v"⟩) ⟨"s", ""⟩).2
     (by decide) rfl,
   (C8_key_ops_fail_fast_without_transport.2.1 (fun _ => .ok ⟨200, ""⟩)
     (fun _ => Option.none) ⟨"", "k", "v"⟩).1 rfl,
   (C8_key_ops_fail_fast_without_transport.2.1 (fun _ => .ok ⟨200, ""⟩)
     (fun _ => Option.none) ⟨"s", "", "v"⟩).2 (by decide) rfl,
   (C8_key_ops_fail_fast_without_transport.2.2 (fun _ => .ok ⟨204, ""⟩) ⟨"", "k"⟩).1 rfl,
   (C8_key_ops_fail_fast_without_transport.2.2 (fun _ => .ok ⟨204, ""⟩) ⟨"s", ""⟩).2
     (by decide) rfl⟩

/-- C9: `InsertKVStoreKey` never validates `Value`: with nonempty `ID`
and `Key`, the call proceeds — exactly one request is issued — and that
request is a PUT to the key path whose raw body is `Value` unchanged
(an empty `Value` included). -/
theorem C9_insert_sends_raw_value_no_value_validation :
    ∀ (t : Transport) (chk : RespChecker) (i : InsertKVStoreKeyInput),
      i.ID ≠ "" → i.Key ≠ "" →
      (InsertKVStoreKey t chk i).2 =
        [⟨.PUT, "/resources/stores/kv/" ++ i.ID ++ "/keys/" ++ i.Key, [], .raw i.Value⟩] := by
  intro t chk i h1 h2
  cases ht : t ⟨.PUT, "/resources/stores/kv/" ++ i.ID ++ "/keys/" ++ i.Key, [], .raw i.Value⟩ <;>
    simp [InsertKVStoreKey, h1, h2, ht]

/-- Witness for C9 with an empty value. -/
theorem C9_insert_sends_raw_value_no_value_validation_witness :
    (InsertKVStoreKey (fun _ => .ok ⟨200, ""⟩) (fun _ => Option.none) ⟨"s", "k", ""⟩).2 =
      [⟨.PUT, "/resources/stores/kv/" ++ "s" ++ "/keys/" ++ "k", [], .raw ""⟩] :=
  C9_insert_sends_raw_value_no_value_validation (fun _ => .ok ⟨200, ""⟩)
    (fun _ => Option.none) ⟨"s", "k", ""⟩ (by decide) (by decide)

/-- C10: in every key operation the store ID is validated before the
key: with both `ID` and `Key` empty the result is `ErrMissingID`, never
`ErrMissingKey`, for every transport (and checker and value). -/
theorem C10_id_validated_before_key :
    (∀ (t : Transport), GetKVStoreKey t ⟨"", ""⟩ = (.error .ErrMissingID, [])) ∧
    (∀ (t : Transport) (chk : RespChecker) (v : String),
        InsertKVStoreKey t chk ⟨"", "", v⟩ = (some .ErrMissingID, [])) ∧
    (∀ (t : Transport), DeleteKVStoreKey t ⟨"", ""⟩ = (some .ErrMissingID, [])) :=
  ⟨fun _ => rfl, fun _ _ _ => rfl, fun _ => rfl⟩

end Fastly
